import Mathlib

/-!
# Vitalli patient-pathway core: shallow embedding and verification

This file embeds the patient data model (`src/types.ts`), the queue builders
(`src/App.tsx`), the nurse intake flow (`src/components/NursePlatform.tsx`),
the physician dispositions (`src/components/PhysicianPlatform.tsx`), the ER
dispositions (`LiveFeedSidebar`/`ERDoctorPlatform` file), the registration
flow (`RegistrationPlatform` file) and the classifier fallback
(`geminiService`) into Lean, and proves the specified properties about them.

Conventions of the embedding:
* JS numbers used as timestamps and ages are embedded as `Nat` (the code only
  ever compares them and takes differences for comparator signs, which we
  model with `Int` subtraction).
* Optional (possibly-`undefined`) TS fields are embedded as `Option`.
* JS string helpers (`trim`, `toUpperCase`, `replace(/\D/g,'')`, `parseInt`,
  `padStart`) are embedded as character-list functions below.
* `Array.prototype.sort(cmp)` (a stable comparison sort) is embedded as an
  insertion sort parameterised by `cmp a b <= 0`; the theorems proved
  (permutation + sortedness for the comparator) are exactly the guarantees
  the ECMAScript spec gives for a consistent comparator.
-/

namespace Vitalli

/-! ## Entity model (src/types.ts) -/

inductive TriageLevel
  | RED
  | ORANGE
  | GREEN
deriving DecidableEq, Repr

inductive PatientStatus
  | REGISTERED
  | TRIAGE
  | PHYSICIAN_QUEUE
  | ER_QUEUE
  | ADMITTED
  | DISCHARGED
  | STABILIZED_HOME
deriving DecidableEq, Repr

inductive Sex
  | MALE
  | FEMALE
deriving DecidableEq, Repr

inductive Specialty
  | INTERNAL_MEDICINE
  | SURGERY
  | OBS_GYN
  | PEDIATRICS
deriving DecidableEq, Repr

inductive ReferralSource
  | NURSE
  | PHYSICIAN
  | DIRECT
  | REGISTRATION
deriving DecidableEq, Repr

structure Vitals where
  bp : String
  hr : String
  temp : String
  spo2 : String
deriving DecidableEq, Repr

structure PathwayStep where
  status : PatientStatus
  description : String
  timestamp : Nat
  actor : String
deriving DecidableEq, Repr

structure Patient where
  id : String
  name : String
  nationalId : String
  phone : String
  queueNumber : Option String
  email : Option String
  address : Option String
  age : Nat
  sex : Sex
  isPregnant : Bool
  specialty : Option Specialty
  medicalHistory : Option String
  familyHistory : Option String
  medications : Option String
  surgeries : Option String
  chiefComplaint : String
  vitals : Vitals
  triageLevel : Option TriageLevel
  aiJustification : Option String
  aiSummary : Option String
  screeningQuestions : Option (List (String × String))
  status : PatientStatus
  timestamp : Nat
  referralSource : Option ReferralSource
  physicianNotes : Option String
  erNotes : Option String
  pathway : List PathwayStep
  followUpVisit : Option Bool
  followUpDays : Option Nat
  followUpSetAt : Option Nat
deriving DecidableEq, Repr

/-! ## JS string helpers used by the embedded code -/

/-- JS `String.prototype.toUpperCase` restricted to the ASCII data the app
holds (ticket numbers such as "Q-007"). -/
def jsUpper (s : String) : String := (s.toList.map Char.toUpper).asString

def wsChar (c : Char) : Bool := c = ' ' ∨ c = '\t' ∨ c = '\n' ∨ c = '\r'

/-- JS `String.prototype.trim`: strip leading and trailing whitespace. -/
def jsTrim (s : String) : String :=
  (((s.toList.dropWhile wsChar).reverse.dropWhile wsChar).reverse).asString

/-- JS `str.replace(/\D/g, '')`: the digit characters of a string. -/
def digitsOf (s : String) : List Char := s.toList.filter Char.isDigit

/-- JS `parseInt` on a (non-empty) string of decimal digits. -/
def digitsToNat (l : List Char) : Nat := l.foldl (fun n c => n * 10 + (c.toNat - 48)) 0

/-- JS `String(n).padStart(3, '0')`. -/
def pad3 (n : Nat) : String :=
  let s := toString n
  if s.length ≥ 3 then s else (List.replicate (3 - s.length) '0').asString ++ s

/-! ## The sort used by the queue builders

`Array.prototype.sort(cmp)` is a stable comparison sort; for a *consistent*
comparator the ECMAScript spec guarantees the result is a permutation of the
input that is sorted for the preorder `cmp a b <= 0`.  We embed it as a
stable insertion sort over lists, parameterised by the boolean relation
`le a b := cmp a b <= 0`, and prove exactly those two guarantees. -/

def insertCmp (le : α → α → Bool) (x : α) : List α → List α
  | [] => [x]
  | y :: ys => if le x y then x :: y :: ys else y :: insertCmp le x ys

def sortByCmp (le : α → α → Bool) : List α → List α
  | [] => []
  | x :: xs => insertCmp le x (sortByCmp le xs)

theorem insertCmp_perm (le : α → α → Bool) (x : α) (l : List α) :
    List.Perm (insertCmp le x l) (x :: l) := by
  induction l with
  | nil => simp [insertCmp]
  | cons y ys ih =>
    simp only [insertCmp]
    split
    · exact List.Perm.refl _
    · exact (List.Perm.cons y ih).trans (List.Perm.swap x y ys)

theorem sortByCmp_perm (le : α → α → Bool) (l : List α) :
    List.Perm (sortByCmp le l) l := by
  induction l with
  | nil => exact List.Perm.refl _
  | cons x xs ih =>
    exact (insertCmp_perm le x (sortByCmp le xs)).trans (List.Perm.cons x ih)

theorem mem_insertCmp {le : α → α → Bool} {x : α} {l : List α} {a : α}
    (h : a ∈ insertCmp le x l) : a = x ∨ a ∈ l :=
  by simpa using (insertCmp_perm le x l).mem_iff.mp h

theorem pairwise_insertCmp {le : α → α → Bool} {x : α} {l : List α}
    (hl : l.Pairwise (le · · = true))
    (htot : ∀ y ∈ l, le x y = true ∨ le y x = true)
    (htrans : ∀ y ∈ l, ∀ z ∈ l, le x y = true → le y z = true → le x z = true) :
    (insertCmp le x l).Pairwise (le · · = true) := by
  induction l with
  | nil => simp [insertCmp]
  | cons y ys ih =>
    rcases List.pairwise_cons.mp hl with ⟨hy, hys⟩
    simp only [insertCmp]
    split
    · rename_i hxy
      refine List.pairwise_cons.mpr ⟨?_, hl⟩
      intro z hz
      rcases List.mem_cons.mp hz with h | h
      · exact h ▸ hxy
      · exact htrans y (List.mem_cons_self ..) z (List.mem_cons_of_mem _ h) hxy (hy z h)
    · rename_i hxy
      refine List.pairwise_cons.mpr ⟨?_, ?_⟩
      · intro z hz
        rcases mem_insertCmp hz with h | h
        · subst h
          rcases htot y (List.mem_cons_self ..) with h | h
          · exact absurd h hxy
          · exact h
        · exact hy z h
      · exact ih hys (fun z hz => htot z (List.mem_cons_of_mem _ hz))
          (fun z hz w hw => htrans z (List.mem_cons_of_mem _ hz) w (List.mem_cons_of_mem _ hw))

theorem pairwise_sortByCmp {le : α → α → Bool} {l : List α}
    (htot : ∀ a ∈ l, ∀ b ∈ l, le a b = true ∨ le b a = true)
    (htrans : ∀ a ∈ l, ∀ b ∈ l, ∀ c ∈ l, le a b = true → le b c = true → le a c = true) :
    (sortByCmp le l).Pairwise (le · · = true) := by
  induction l with
  | nil => simp [sortByCmp]
  | cons x xs ih =>
    have hmem : ∀ a ∈ sortByCmp le xs, a ∈ xs :=
      fun a ha => (sortByCmp_perm le xs).mem_iff.mp ha
    refine pairwise_insertCmp ?_ ?_ ?_
    · exact ih (fun a ha b hb => htot a (List.mem_cons_of_mem _ ha) b (List.mem_cons_of_mem _ hb))
        (fun a ha b hb c hc => htrans a (List.mem_cons_of_mem _ ha) b (List.mem_cons_of_mem _ hb)
          c (List.mem_cons_of_mem _ hc))
    · exact fun y hy => htot x (List.mem_cons_self ..) y (List.mem_cons_of_mem _ (hmem y hy))
    · exact fun y hy z hz => htrans x (List.mem_cons_self ..) y
        (List.mem_cons_of_mem _ (hmem y hy)) z (List.mem_cons_of_mem _ (hmem z hz))

/-! ## Queue builders (src/App.tsx, `physicianQueue` and `erQueue`) -/

/-- The physician-queue comparator of `src/App.tsx` (the callback passed to
`.sort`), translated branch by branch; the JS `a.timestamp - b.timestamp` is
the `Int` difference. -/
def physCompare (a b : Patient) : Int :=
  -- Rule 1: Intermediate (ORANGE) always appears before Stable (GREEN)
  if a.triageLevel = some TriageLevel.ORANGE ∧ b.triageLevel = some TriageLevel.GREEN then -1
  else if a.triageLevel = some TriageLevel.GREEN ∧ b.triageLevel = some TriageLevel.ORANGE then 1
  -- Rule 2: Priority ordering within Stable (GREEN) patients
  else if a.triageLevel = some TriageLevel.GREEN ∧ b.triageLevel = some TriageLevel.GREEN then
    if a.age ≥ 75 ∧ ¬ (b.age ≥ 75) then -1
    else if ¬ (a.age ≥ 75) ∧ b.age ≥ 75 then 1
    else if a.isPregnant ∧ ¬ b.isPregnant then -1
    else if ¬ a.isPregnant ∧ b.isPregnant then 1
    -- Rule 3: Tie-breaker / Default (FCFS)
    else (a.timestamp : Int) - b.timestamp
  else (a.timestamp : Int) - b.timestamp

def physLe (a b : Patient) : Bool := physCompare a b ≤ 0

/-- `physicianQueue` from `src/App.tsx`: filter on status, then sort with the
comparator above. -/
def physicianQueue (patients : List Patient) : List Patient :=
  sortByCmp physLe (patients.filter (fun p => p.status = PatientStatus.PHYSICIAN_QUEUE))

/-- The emergency-queue comparator of `src/App.tsx`. -/
def erCompare (a b : Patient) : Int :=
  if a.triageLevel = some TriageLevel.RED ∧ b.triageLevel ≠ some TriageLevel.RED then -1
  else if b.triageLevel = some TriageLevel.RED ∧ a.triageLevel ≠ some TriageLevel.RED then 1
  else (a.timestamp : Int) - b.timestamp

def erLe (a b : Patient) : Bool := erCompare a b ≤ 0

/-- `erQueue` from `src/App.tsx`. -/
def erQueue (patients : List Patient) : List Patient :=
  sortByCmp erLe (patients.filter (fun p => p.status = PatientStatus.ER_QUEUE))

/-! ## The physician-queue order as worded by the spec

`physSpecLe` is written from the spec's description of the ordering (ORANGE
before GREEN; within GREEN only, elderly first, then pregnant; remaining ties
by ascending timestamp; no elderly/pregnancy boost within ORANGE), to be
compared with the comparator translated from the source. -/

/-- Priority rank of a GREEN patient per the spec: elderliness dominates,
pregnancy breaks elderliness ties (0 = highest priority). -/
def greenRank (p : Patient) : Nat :=
  (if p.age ≥ 75 then 0 else 2) + (if p.isPregnant then 0 else 1)

/-- The ordering the spec claims for the physician queue. -/
def physSpecLe (a b : Patient) : Prop :=
  (a.triageLevel = some TriageLevel.ORANGE ∧ b.triageLevel = some TriageLevel.GREEN)
  ∨ (a.triageLevel = some TriageLevel.ORANGE ∧ b.triageLevel = some TriageLevel.ORANGE ∧
      a.timestamp ≤ b.timestamp)
  ∨ (a.triageLevel = some TriageLevel.GREEN ∧ b.triageLevel = some TriageLevel.GREEN ∧
      (greenRank a < greenRank b ∨ (greenRank a = greenRank b ∧ a.timestamp ≤ b.timestamp)))

instance (a b : Patient) : Decidable (physSpecLe a b) := by unfold physSpecLe; infer_instance

/-- The ordering the spec claims for the emergency queue: RED strictly before
non-RED, all ties by ascending timestamp. -/
def erSpecLe (a b : Patient) : Prop :=
  (a.triageLevel = some TriageLevel.RED ∧ b.triageLevel ≠ some TriageLevel.RED)
  ∨ ((a.triageLevel = some TriageLevel.RED ↔ b.triageLevel = some TriageLevel.RED) ∧
      a.timestamp ≤ b.timestamp)

instance (a b : Patient) : Decidable (erSpecLe a b) := by unfold erSpecLe; infer_instance

/-- On patients whose urgency is ORANGE or GREEN (the only levels a
PHYSICIAN_QUEUE patient can carry), the source comparator realises exactly
the spec's order. -/
theorem physLe_iff {a b : Patient}
    (ha : a.triageLevel = some TriageLevel.ORANGE ∨ a.triageLevel = some TriageLevel.GREEN)
    (hb : b.triageLevel = some TriageLevel.ORANGE ∨ b.triageLevel = some TriageLevel.GREEN) :
    physLe a b = true ↔ physSpecLe a b := by
  rcases ha with ha | ha <;> rcases hb with hb | hb <;>
    by_cases h1 : a.age ≥ 75 <;> by_cases h2 : b.age ≥ 75 <;>
    by_cases h3 : a.isPregnant <;> by_cases h4 : b.isPregnant <;>
    simp [physLe, physCompare, physSpecLe, greenRank, ha, hb, h1, h2, h3, h4] <;> omega

theorem physSpecLe_total {a b : Patient}
    (ha : a.triageLevel = some TriageLevel.ORANGE ∨ a.triageLevel = some TriageLevel.GREEN)
    (hb : b.triageLevel = some TriageLevel.ORANGE ∨ b.triageLevel = some TriageLevel.GREEN) :
    physSpecLe a b ∨ physSpecLe b a := by
  rcases ha with ha | ha <;> rcases hb with hb | hb <;>
    simp [physSpecLe, ha, hb] <;> omega

theorem physSpecLe_trans {a b c : Patient} (hab : physSpecLe a b) (hbc : physSpecLe b c) :
    physSpecLe a c := by
  rcases hab with ⟨h1, h2⟩ | ⟨h1, h2, h3⟩ | ⟨h1, h2, h3⟩ <;>
  rcases hbc with ⟨g1, g2⟩ | ⟨g1, g2, g3⟩ | ⟨g1, g2, g3⟩ <;>
    simp_all [physSpecLe] <;> omega

theorem erLe_iff (a b : Patient) : erLe a b = true ↔ erSpecLe a b := by
  by_cases h1 : a.triageLevel = some TriageLevel.RED <;>
  by_cases h2 : b.triageLevel = some TriageLevel.RED <;>
    simp [erLe, erCompare, erSpecLe, h1, h2] <;> omega

theorem erSpecLe_total (a b : Patient) : erSpecLe a b ∨ erSpecLe b a := by
  by_cases h1 : a.triageLevel = some TriageLevel.RED <;>
  by_cases h2 : b.triageLevel = some TriageLevel.RED <;>
    simp [erSpecLe, h1, h2] <;> omega

theorem erSpecLe_trans {a b c : Patient} (hab : erSpecLe a b) (hbc : erSpecLe b c) :
    erSpecLe a c := by
  rcases hab with ⟨h1, h2⟩ | ⟨h1, h2⟩ <;> rcases hbc with ⟨g1, g2⟩ | ⟨g1, g2⟩ <;>
    simp_all [erSpecLe] <;> omega

/-! ## Physician dispositions (src/components/PhysicianPlatform.tsx)

Each handler reads the selected patient and, unless it bails out, hands a
partial update to `updatePatient`, which merges it into the record.  We embed
each handler as a function from the selected patient (plus the handler's free
inputs: the notes text and the current clock) to the updated record, `none`
meaning the handler returned without updating anything. -/

/-- `handleTransferToER`: escalation PHYSICIAN_QUEUE → ER_QUEUE.  Bails out
when the trimmed exam notes are empty (`!examNotes.trim()`). -/
def handleTransferToER (p : Patient) (examNotes : String) (now : Nat) : Option Patient :=
  if jsTrim examNotes = "" then none
  else
    let erStep : PathwayStep :=
      { status := PatientStatus.ER_QUEUE
        description := "Escalated to ER by Physician. Reason: " ++ examNotes
        timestamp := now
        actor := "Attending Physician" }
    some { p with
      status := PatientStatus.ER_QUEUE
      referralSource := some ReferralSource.PHYSICIAN
      physicianNotes := some examNotes
      triageLevel := some TriageLevel.RED
      pathway := p.pathway ++ [erStep] }

/-- The record after the escalation handler runs (unchanged when it bailed). -/
def runTransferToER (p : Patient) (examNotes : String) (now : Nat) : Patient :=
  (handleTransferToER p examNotes now).getD p

/-- `handleAdmit`: PHYSICIAN_QUEUE → ADMITTED, no notes requirement. -/
def handleAdmit (p : Patient) (examNotes : String) (now : Nat) : Patient :=
  let admitStep : PathwayStep :=
    { status := PatientStatus.ADMITTED
      description := "Patient admitted to hospital ward. Notes: " ++ examNotes
      timestamp := now
      actor := "Attending Physician" }
  { p with
    status := PatientStatus.ADMITTED
    physicianNotes := some examNotes
    pathway := p.pathway ++ [admitStep] }

/-- `finalizeDischarge`: PHYSICIAN_QUEUE → DISCHARGED with optional follow-up. -/
def finalizeDischarge (p : Patient) (examNotes : String) (needsFollowUp : Bool)
    (followUpDays : Nat) (now : Nat) : Patient :=
  let description :=
    if needsFollowUp then
      "Patient discharged home. Follow-up scheduled in " ++ toString followUpDays ++
        " days. Instructions: " ++ examNotes
    else
      "Patient discharged home. No follow-up required. Instructions: " ++ examNotes
  let dischargeStep : PathwayStep :=
    { status := PatientStatus.DISCHARGED
      description := description
      timestamp := now
      actor := "Attending Physician" }
  { p with
    status := PatientStatus.DISCHARGED
    physicianNotes := some examNotes
    followUpVisit := some needsFollowUp
    followUpDays := if needsFollowUp then some followUpDays else none
    followUpSetAt := if needsFollowUp then some now else none
    pathway := p.pathway ++ [dischargeStep] }

/-! ## ER dispositions (`handleDisposition` of the ERDoctorPlatform file) -/

/-- `handleDisposition`: from ER_QUEUE to ADMITTED, STABILIZED_HOME or (the
de-escalation) PHYSICIAN_QUEUE.  Returning to the clinic without trimmed
non-empty notes bails out; de-escalation forces `triageLevel` to ORANGE. -/
def handleDisposition (p : Patient) (status : PatientStatus) (erNotes : String)
    (now : Nat) : Option Patient :=
  if status = PatientStatus.PHYSICIAN_QUEUE ∧ jsTrim erNotes = "" then none
  else
    let description :=
      if status = PatientStatus.ADMITTED then
        "Patient hospitalized after stabilization. ER Notes: " ++ erNotes
      else if status = PatientStatus.STABILIZED_HOME then
        "Patient stabilized and discharged home. ER Notes: " ++ erNotes
      else
        "Patient returned to Physician queue for clinic follow-up. Stabilization updates: "
          ++ erNotes
    let dispositionStep : PathwayStep :=
      { status := status, description := description, timestamp := now, actor := "ER Physician" }
    let p' := { p with
      status := status
      erNotes := some erNotes
      timestamp := now
      pathway := p.pathway ++ [dispositionStep] }
    some (if status = PatientStatus.PHYSICIAN_QUEUE then
      { p' with triageLevel := some TriageLevel.ORANGE } else p')

/-- The record after the ER disposition handler runs (unchanged on bail). -/
def runDisposition (p : Patient) (status : PatientStatus) (erNotes : String)
    (now : Nat) : Patient :=
  (handleDisposition p status erNotes now).getD p

/-! ## Nurse intake (src/components/NursePlatform.tsx) -/

/-- The nurse platform's `formData` state (`Partial<Patient>`): fields the
form may leave `undefined` are `Option`s, the rest start as empty strings. -/
structure FormData where
  id : Option String
  name : String
  age : Option Nat
  sex : Option Sex
  isPregnant : Option Bool
  nationalId : String
  phone : String
  queueNumber : String
  medicalHistory : String
  familyHistory : String
  medications : String
  surgeries : String
  chiefComplaint : String
  vitals : Vitals
  pathway : List PathwayStep
deriving DecidableEq, Repr

/-- `handleInputChange` specialised to the `sex` field: records the value
and, when it is MALE, forces `isPregnant` to `false`. -/
def setSexField (fd : FormData) (value : Sex) : FormData :=
  let updates := { fd with sex := some value }
  if value = Sex.MALE then { updates with isPregnant := some false } else updates

/-- The classifier's output shape (`{level, justification}`). -/
structure TriageResult where
  level : TriageLevel
  justification : String
deriving DecidableEq, Repr

/-- The error handling of `getAITriage` (geminiService file): a response that
parses to a level/justification pair is returned as-is; a response that
cannot be parsed hits the `catch` branch, which returns a GREEN default
instead of surfacing the failure. -/
def getAITriageResult (parsed : Option TriageResult) : TriageResult :=
  match parsed with
  | some r => r
  | none =>
    { level := TriageLevel.GREEN
      justification := "System error: Using default stable classification." }

/-- Outcome of `handleQueueSearch`: it either does nothing (blank input),
reports not-found, starts intake with the found patient's data, or reports
the already-processed condition with the patient's name and current status. -/
inductive QueueSearchOutcome
  | noop
  | notFound
  | intake (p : Patient)
  | alreadyProcessed (name : String) (status : PatientStatus)
deriving DecidableEq, Repr

/-- The matching predicate inside `handleQueueSearch`'s `patients.find`:
exact match on the upper-cased ticket, or equality of the numeric portions
(`parseInt` of the digit characters) when both sides have digits. -/
def ticketMatches (input : String) (p : Patient) : Bool :=
  let pQueue := jsUpper (p.queueNumber.getD "")
  if pQueue = input then true
  else
    let pDigits := digitsOf pQueue
    let inputDigits := digitsOf input
    if pDigits ≠ [] ∧ inputDigits ≠ [] then
      digitsToNat pDigits == digitsToNat inputDigits
    else false

/-- `handleQueueSearch`: normalise the query (`trim` then `toUpperCase`),
find the first matching patient, and dispatch on its status. -/
def handleQueueSearch (patients : List Patient) (queueInput : String) : QueueSearchOutcome :=
  let input := jsUpper (jsTrim queueInput)
  if input = "" then QueueSearchOutcome.noop
  else
    match patients.find? (ticketMatches input) with
    | none => QueueSearchOutcome.notFound
    | some p =>
      if p.status = PatientStatus.REGISTERED then QueueSearchOutcome.intake p
      else QueueSearchOutcome.alreadyProcessed p.name p.status

def levelName : TriageLevel → String
  | TriageLevel.RED => "RED"
  | TriageLevel.ORANGE => "ORANGE"
  | TriageLevel.GREEN => "GREEN"

/-- JS `s || dflt` on strings: the default replaces `undefined`/empty. -/
def jsOrStr (s dflt : String) : String := if s = "" then dflt else s

/-- `finalizePatient` (NursePlatform): builds the final patient record from
the intake form, the classifier outcome held in component state (`aiTriage`,
`none` when no classification is present), the screening Q/A, a fresh MRN
token (modelling `MRN-${random}`) and the clock.  The intake flow only calls
it after `isFormValid`, which guarantees `age` and `sex` are set; the `getD`
defaults stand for the unchecked `formData as Patient` cast on those fields. -/
def finalizePatient (fd : FormData) (aiTriage : Option TriageResult)
    (screening : List String) (screeningAnswers : List String)
    (freshId : String) (now : Nat) : Patient :=
  let status := if aiTriage.map TriageResult.level = some TriageLevel.RED
    then PatientStatus.ER_QUEUE else PatientStatus.PHYSICIAN_QUEUE
  let levelText := match aiTriage with
    | some t => levelName t.level
    | none => "undefined"
  let triageStep : PathwayStep :=
    { status := status
      description := "Triage completed. Category: " ++ levelText ++ ". Complaint: "
        ++ fd.chiefComplaint
      timestamp := now
      actor := "Triage Nurse" }
  { id := match fd.id with | some i => jsOrStr i freshId | none => freshId
    name := fd.name
    nationalId := jsOrStr fd.nationalId "PENDING"
    phone := jsOrStr fd.phone "PENDING"
    queueNumber := some fd.queueNumber
    email := none
    address := none
    age := fd.age.getD 0
    sex := fd.sex.getD Sex.MALE
    isPregnant := fd.isPregnant.getD false
    specialty := none
    medicalHistory := some fd.medicalHistory
    familyHistory := some fd.familyHistory
    medications := some fd.medications
    surgeries := some fd.surgeries
    chiefComplaint := fd.chiefComplaint
    vitals := fd.vitals
    triageLevel := some (match aiTriage with | some t => t.level | none => TriageLevel.GREEN)
    aiJustification := aiTriage.map TriageResult.justification
    aiSummary := none
    screeningQuestions := some (screening.zipWith (fun q a => (q, a)) screeningAnswers)
    status := status
    timestamp := now
    referralSource := some ReferralSource.NURSE
    physicianNotes := none
    erNotes := none
    pathway := fd.pathway ++ [triageStep]
    followUpVisit := none
    followUpDays := none
    followUpSetAt := none }

/-! ## Registration (the RegistrationPlatform file) -/

/-- The registration form state (`age` is string-typed in the source). -/
structure RegFormData where
  name : String
  nationalId : String
  phone : String
  email : String
  address : String
  age : String
  sex : Sex
  specialty : Specialty
deriving DecidableEq, Repr

/-- `activeSession`: the first patient holding the typed national identifier
in a non-terminal status (anything except DISCHARGED / STABILIZED_HOME);
`none` until 14 characters have been typed. -/
def activeSession (patients : List Patient) (nationalId : String) : Option Patient :=
  if nationalId = "" ∨ nationalId.length < 14 then none
  else patients.find? (fun p =>
    p.nationalId = nationalId ∧ p.status ≠ PatientStatus.DISCHARGED ∧
      p.status ≠ PatientStatus.STABILIZED_HOME)

/-- The registration `isFormValid`. -/
def isRegFormValid (patients : List Patient) (fd : RegFormData) : Bool :=
  (jsTrim fd.name).length > 0 ∧ (jsTrim fd.nationalId).length = 14 ∧
    (jsTrim fd.phone).length > 7 ∧ fd.age ≠ "" ∧
    activeSession patients fd.nationalId = none

/-- JS `formData.specialty.replace('_', ' ')` (first occurrence only). -/
def specialtyLabel : Specialty → String
  | Specialty.INTERNAL_MEDICINE => "INTERNAL MEDICINE"
  | Specialty.SURGERY => "SURGERY"
  | Specialty.OBS_GYN => "OBS GYN"
  | Specialty.PEDIATRICS => "PEDIATRICS"

/-- JS `parseInt` on the digits-only age field. -/
def parseAge (s : String) : Nat := digitsToNat (digitsOf s)

/-- `handleRegister`: validate, derive the day-scoped ticket `Q-###` from the
count of today's patients, reuse the selected returning patient's MRN (else a
fresh token, modelling `MRN-${random}`), and build the REGISTERED entry with
its single registration pathway step.  `isToday` models
`new Date(t).toDateString() === new Date().toDateString()`.  Returns the
entry handed to `onRegister` plus the assigned ticket, or `none` when the
form is rejected (in which case nothing is registered). -/
def handleRegister (patients : List Patient) (selectedExisting : Option Patient)
    (fd : RegFormData) (freshId : String) (now : Nat) (isToday : Nat → Bool) :
    Option (Patient × String) :=
  if ¬ isRegFormValid patients fd then none
  else
    let todayPatients := patients.filter (fun p => isToday p.timestamp)
    let queueNumber := "Q-" ++ pad3 (todayPatients.length + 1)
    let patientId := match selectedExisting with
      | some q => jsOrStr q.id freshId
      | none => freshId
    let newEntry : Patient :=
      { id := patientId
        name := fd.name
        nationalId := fd.nationalId
        phone := fd.phone
        queueNumber := some queueNumber
        email := some fd.email
        address := some fd.address
        age := parseAge fd.age
        sex := fd.sex
        specialty := some fd.specialty
        isPregnant := false
        medicalHistory := none
        familyHistory := none
        medications := none
        surgeries := none
        chiefComplaint := ""
        vitals := { bp := "", hr := "", temp := "", spo2 := "" }
        triageLevel := none
        aiJustification := none
        aiSummary := none
        screeningQuestions := none
        status := PatientStatus.REGISTERED
        timestamp := now
        referralSource := some ReferralSource.REGISTRATION
        physicianNotes := none
        erNotes := none
        pathway := [{ status := PatientStatus.REGISTERED
                      description := "Patient registered for " ++ specialtyLabel fd.specialty
                        ++ " and issued queue ticket."
                      timestamp := now
                      actor := "Registration Clerk" }]
        followUpVisit := none
        followUpDays := none
        followUpSetAt := none }
    some (newEntry, queueNumber)

/-- `addPatient`'s spread merge `{...old, ...newEntry}` for a registration
entry: every field the registration literal mentions overwrites the old
record; the fields it does not mention keep their old values. -/
def registerMerge (old entry : Patient) : Patient :=
  { entry with
    medicalHistory := old.medicalHistory
    familyHistory := old.familyHistory
    medications := old.medications
    surgeries := old.surgeries
    aiJustification := old.aiJustification
    aiSummary := old.aiSummary
    screeningQuestions := old.screeningQuestions
    physicianNotes := old.physicianNotes
    erNotes := old.erNotes
    followUpVisit := old.followUpVisit
    followUpDays := old.followUpDays
    followUpSetAt := old.followUpSetAt }

/-- `onRegister` = `addPatient` (src/App.tsx) applied to a registration
entry: merge into the first record carrying the same MRN, else append. -/
def addRegistered (prev : List Patient) (entry : Patient) : List Patient :=
  match prev with
  | [] => [entry]
  | p :: ps =>
    if p.id = entry.id then registerMerge p entry :: ps
    else p :: addRegistered ps entry

/-- The whole registration submission: `handleRegister` followed (on
success) by `onRegister`/`addPatient`; the collection is untouched when the
form is rejected. -/
def registerAndAdd (patients : List Patient) (selectedExisting : Option Patient)
    (fd : RegFormData) (freshId : String) (now : Nat) (isToday : Nat → Bool) :
    List Patient :=
  match handleRegister patients selectedExisting fd freshId now isToday with
  | none => patients
  | some (entry, _) => addRegistered patients entry

/-! ## Example patients used by witnesses and counterexamples -/

/-- A neutral base record; each example overrides the fields it cares about. -/
def basePatient : Patient :=
  { id := "MRN-BASE00"
    name := ""
    nationalId := ""
    phone := ""
    queueNumber := none
    email := none
    address := none
    age := 30
    sex := Sex.MALE
    isPregnant := false
    specialty := none
    medicalHistory := none
    familyHistory := none
    medications := none
    surgeries := none
    chiefComplaint := ""
    vitals := { bp := "", hr := "", temp := "", spo2 := "" }
    triageLevel := none
    aiJustification := none
    aiSummary := none
    screeningQuestions := none
    status := PatientStatus.REGISTERED
    timestamp := 0
    referralSource := none
    physicianNotes := none
    erNotes := none
    pathway := []
    followUpVisit := none
    followUpDays := none
    followUpSetAt := none }

/-- Spec example A: ORANGE, t = 1, waiting for the physician. -/
def patientA : Patient :=
  { basePatient with
    id := "MRN-A"
    name := "A"
    status := PatientStatus.PHYSICIAN_QUEUE
    triageLevel := some TriageLevel.ORANGE
    timestamp := 1 }

/-- Spec example B: GREEN, age 80, t = 2. -/
def patientB : Patient :=
  { basePatient with
    id := "MRN-B"
    name := "B"
    status := PatientStatus.PHYSICIAN_QUEUE
    triageLevel := some TriageLevel.GREEN
    age := 80
    timestamp := 2 }

/-- Spec example C: GREEN, age 30, t = 3. -/
def patientC : Patient :=
  { basePatient with
    id := "MRN-C"
    name := "C"
    status := PatientStatus.PHYSICIAN_QUEUE
    triageLevel := some TriageLevel.GREEN
    age := 30
    timestamp := 3 }

/-- Spec example F: ORANGE, t = 1, in the emergency queue. -/
def patientF : Patient :=
  { basePatient with
    id := "MRN-F"
    name := "F"
    status := PatientStatus.ER_QUEUE
    triageLevel := some TriageLevel.ORANGE
    timestamp := 1 }

/-- Spec example G: RED, t = 5, in the emergency queue. -/
def patientG : Patient :=
  { basePatient with
    id := "MRN-G"
    name := "G"
    status := PatientStatus.ER_QUEUE
    triageLevel := some TriageLevel.RED
    timestamp := 5 }

/-! ## C1: physician-queue ordering -/

/-- C1: For every collection of patients (whose PHYSICIAN_QUEUE members
carry the ORANGE or GREEN urgency that every reachable state gives them),
the physician queue contains exactly the patients with status
PHYSICIAN_QUEUE, ordered so that every ORANGE patient precedes every GREEN
patient; within GREEN only, every patient aged ≥ 75 precedes every younger
one and, among equal elderliness, every pregnant patient precedes every
non-pregnant one; all remaining ties — including every ORANGE-vs-ORANGE
pair — are by ascending timestamp, and the boosts are never applied within
the ORANGE tier (`physSpecLe` grants ORANGE pairs no boost). -/
theorem physicianQueue_ordering_spec (ps : List Patient)
    (h : ∀ p ∈ ps, p.status = PatientStatus.PHYSICIAN_QUEUE →
        p.triageLevel = some TriageLevel.ORANGE ∨ p.triageLevel = some TriageLevel.GREEN) :
    (physicianQueue ps).Perm
        (ps.filter (fun p => p.status = PatientStatus.PHYSICIAN_QUEUE))
    ∧ (physicianQueue ps).Pairwise physSpecLe := by
  have hperm := sortByCmp_perm physLe
    (ps.filter (fun p => p.status = PatientStatus.PHYSICIAN_QUEUE))
  refine ⟨hperm, ?_⟩
  have hlev : ∀ p ∈ ps.filter (fun p => p.status = PatientStatus.PHYSICIAN_QUEUE),
      p.triageLevel = some TriageLevel.ORANGE ∨ p.triageLevel = some TriageLevel.GREEN := by
    intro p hp
    rw [List.mem_filter] at hp
    exact h p hp.1 (by simpa using hp.2)
  have hpw : (physicianQueue ps).Pairwise (physLe · · = true) := by
    refine pairwise_sortByCmp ?_ ?_
    · intro a ha b hb
      rcases physSpecLe_total (hlev a ha) (hlev b hb) with h' | h'
      · exact Or.inl ((physLe_iff (hlev a ha) (hlev b hb)).mpr h')
      · exact Or.inr ((physLe_iff (hlev b hb) (hlev a ha)).mpr h')
    · intro a ha b hb c hc hab hbc
      exact (physLe_iff (hlev a ha) (hlev c hc)).mpr
        (physSpecLe_trans ((physLe_iff (hlev a ha) (hlev b hb)).mp hab)
          ((physLe_iff (hlev b hb) (hlev c hc)).mp hbc))
  refine hpw.imp_of_mem ?_
  intro a b ha hb hab
  exact (physLe_iff (hlev a (hperm.mem_iff.mp ha)) (hlev b (hperm.mem_iff.mp hb))).mp hab

/-- Witness for C1 on the spec's own example (A ORANGE t1, B GREEN aged 80
t2, C GREEN aged 30 t3, presented out of order). -/
theorem physicianQueue_ordering_spec_witness :
    (∀ p ∈ [patientC, patientA, patientB], p.status = PatientStatus.PHYSICIAN_QUEUE →
        p.triageLevel = some TriageLevel.ORANGE ∨ p.triageLevel = some TriageLevel.GREEN)
    ∧ ((physicianQueue [patientC, patientA, patientB]).Perm
          ([patientC, patientA, patientB].filter
            (fun p => p.status = PatientStatus.PHYSICIAN_QUEUE))
        ∧ (physicianQueue [patientC, patientA, patientB]).Pairwise physSpecLe) :=
  ⟨by decide, physicianQueue_ordering_spec [patientC, patientA, patientB] (by decide)⟩

/-! ## C8: emergency-queue ordering -/

/-- C8: For every collection of patients, the emergency queue contains
exactly the patients with status ER_QUEUE, every RED patient ordered before
every non-RED patient and all ties by ascending timestamp; in particular,
given F (ORANGE, t = 1) and G (RED, t = 5), the resulting order is [G, F]. -/
theorem erQueue_ordering_spec :
    (∀ ps : List Patient,
      (erQueue ps).Perm (ps.filter (fun p => p.status = PatientStatus.ER_QUEUE))
      ∧ (erQueue ps).Pairwise erSpecLe)
    ∧ erQueue [patientF, patientG] = [patientG, patientF] := by
  constructor
  · intro ps
    refine ⟨sortByCmp_perm erLe _, ?_⟩
    have hpw : (erQueue ps).Pairwise (erLe · · = true) := by
      refine pairwise_sortByCmp ?_ ?_
      · intro a _ b _
        rcases erSpecLe_total a b with h' | h'
        · exact Or.inl ((erLe_iff a b).mpr h')
        · exact Or.inr ((erLe_iff b a).mpr h')
      · intro a _ b _ c _ hab hbc
        exact (erLe_iff a c).mpr (erSpecLe_trans ((erLe_iff a b).mp hab) ((erLe_iff b c).mp hbc))
    exact hpw.imp (fun hab => (erLe_iff _ _).mp hab)
  · decide

/-! ## C2: escalation forces RED; empty notes reject -/

/-- C2: For every patient in PHYSICIAN_QUEUE, escalation to ER_QUEUE with
non-empty (trimmed) clinician notes always sets `triageLevel` to RED whatever
its prior value was, appending the escalation step; an attempt with empty
notes is rejected: no update is produced and the record is unchanged. -/
theorem handleTransferToER_escalation_spec (p : Patient) (notes : String) (now : Nat)
    (hq : p.status = PatientStatus.PHYSICIAN_QUEUE) :
    (jsTrim notes ≠ "" →
      ∃ p', handleTransferToER p notes now = some p'
        ∧ p'.status = PatientStatus.ER_QUEUE
        ∧ p'.triageLevel = some TriageLevel.RED
        ∧ p'.pathway = p.pathway ++
            [{ status := PatientStatus.ER_QUEUE
               description := "Escalated to ER by Physician. Reason: " ++ notes
               timestamp := now
               actor := "Attending Physician" }])
    ∧ (jsTrim notes = "" →
        handleTransferToER p notes now = none ∧ runTransferToER p notes now = p) := by
  constructor
  · intro h
    unfold handleTransferToER
    rw [if_neg h]
    exact ⟨_, rfl, rfl, rfl, rfl⟩
  · intro h
    unfold runTransferToER handleTransferToER
    rw [if_pos h]
    exact ⟨rfl, rfl⟩

/-- Witness for C2: patient A escalated with notes, and with blank notes. -/
theorem handleTransferToER_escalation_spec_witness :
    patientA.status = PatientStatus.PHYSICIAN_QUEUE
    ∧ ((jsTrim "BP crashing" ≠ "" →
        ∃ p', handleTransferToER patientA "BP crashing" 7 = some p'
          ∧ p'.status = PatientStatus.ER_QUEUE
          ∧ p'.triageLevel = some TriageLevel.RED
          ∧ p'.pathway = patientA.pathway ++
              [{ status := PatientStatus.ER_QUEUE
                 description := "Escalated to ER by Physician. Reason: " ++ "BP crashing"
                 timestamp := 7
                 actor := "Attending Physician" }])
      ∧ (jsTrim "BP crashing" = "" →
          handleTransferToER patientA "BP crashing" 7 = none
          ∧ runTransferToER patientA "BP crashing" 7 = patientA)) :=
  ⟨by decide, handleTransferToER_escalation_spec patientA "BP crashing" 7 (by decide)⟩

/-! ## C5: de-escalation forces ORANGE; empty notes reject -/

/-- C5: For every patient in ER_QUEUE, de-escalation back to
PHYSICIAN_QUEUE with non-empty (trimmed) stabilization notes always sets
`triageLevel` to ORANGE (never leaving it GREEN or RED on return), appending
the disposition step; an attempt with empty notes is rejected and the record
is unchanged. -/
theorem handleDisposition_deescalation_spec (p : Patient) (notes : String) (now : Nat)
    (hq : p.status = PatientStatus.ER_QUEUE) :
    (jsTrim notes ≠ "" →
      ∃ p', handleDisposition p PatientStatus.PHYSICIAN_QUEUE notes now = some p'
        ∧ p'.status = PatientStatus.PHYSICIAN_QUEUE
        ∧ p'.triageLevel = some TriageLevel.ORANGE
        ∧ p'.pathway = p.pathway ++
            [{ status := PatientStatus.PHYSICIAN_QUEUE
               description :=
                 "Patient returned to Physician queue for clinic follow-up. Stabilization updates: "
                   ++ notes
               timestamp := now
               actor := "ER Physician" }])
    ∧ (jsTrim notes = "" →
        handleDisposition p PatientStatus.PHYSICIAN_QUEUE notes now = none
        ∧ runDisposition p PatientStatus.PHYSICIAN_QUEUE notes now = p) := by
  constructor
  · intro h
    unfold handleDisposition
    rw [if_neg (by simp [h])]
    refine ⟨_, rfl, ?_, ?_, ?_⟩ <;> simp
  · intro h
    unfold runDisposition handleDisposition
    rw [if_pos (by simp [h])]
    exact ⟨rfl, rfl⟩

/-- Witness for C5: patient G de-escalated with notes, and with blank notes. -/
theorem handleDisposition_deescalation_spec_witness :
    patientG.status = PatientStatus.ER_QUEUE
    ∧ ((jsTrim "stabilized on fluids" ≠ "" →
        ∃ p', handleDisposition patientG PatientStatus.PHYSICIAN_QUEUE
                "stabilized on fluids" 9 = some p'
          ∧ p'.status = PatientStatus.PHYSICIAN_QUEUE
          ∧ p'.triageLevel = some TriageLevel.ORANGE
          ∧ p'.pathway = patientG.pathway ++
              [{ status := PatientStatus.PHYSICIAN_QUEUE
                 description :=
                   "Patient returned to Physician queue for clinic follow-up. Stabilization updates: "
                     ++ "stabilized on fluids"
                 timestamp := 9
                 actor := "ER Physician" }])
      ∧ (jsTrim "stabilized on fluids" = "" →
          handleDisposition patientG PatientStatus.PHYSICIAN_QUEUE "stabilized on fluids" 9 = none
          ∧ runDisposition patientG PatientStatus.PHYSICIAN_QUEUE "stabilized on fluids" 9
              = patientG)) :=
  ⟨by decide, handleDisposition_deescalation_spec patientG "stabilized on fluids" 9 (by decide)⟩

/-! ## C6: triage determines the target queue -/

/-- C6: Every patient leaving REGISTERED through `finalizePatient`
carries a non-null urgency level, and its target status is ER_QUEUE if and
only if the urgency is RED, otherwise PHYSICIAN_QUEUE.  `finalizePatient`
takes no target-queue argument, so the caller cannot choose the queue: the
status is a function of the classifier outcome alone. -/
theorem finalizePatient_target_queue_spec (fd : FormData) (tri : Option TriageResult)
    (scr ans : List String) (freshId : String) (now : Nat) :
    ((finalizePatient fd tri scr ans freshId now).status = PatientStatus.ER_QUEUE
        ↔ tri.map TriageResult.level = some TriageLevel.RED)
    ∧ ((finalizePatient fd tri scr ans freshId now).status = PatientStatus.ER_QUEUE
        ∨ (finalizePatient fd tri scr ans freshId now).status = PatientStatus.PHYSICIAN_QUEUE)
    ∧ (finalizePatient fd tri scr ans freshId now).triageLevel.isSome = true
    ∧ ((finalizePatient fd tri scr ans freshId now).status = PatientStatus.ER_QUEUE
        ↔ (finalizePatient fd tri scr ans freshId now).triageLevel = some TriageLevel.RED) := by
  rcases tri with _ | t
  · simp [finalizePatient]
  · by_cases h : t.level = TriageLevel.RED <;> simp [finalizePatient, h]

/-! ## C3: classifier failure (corrected) -/

/-- An empty intake form, used by concrete counterexamples. -/
def fdBlank : FormData :=
  { id := none
    name := ""
    age := none
    sex := none
    isPregnant := none
    nationalId := ""
    phone := ""
    queueNumber := ""
    medicalHistory := ""
    familyHistory := ""
    medications := ""
    surgeries := ""
    chiefComplaint := ""
    vitals := { bp := "", hr := "", temp := "", spo2 := "" }
    pathway := [] }

/-- C3 counterexample: The claim says that on classifier failure the
urgency is left unset and never silently defaulted to GREEN.  The code does
the opposite at this concrete input: the unparseable response (`none`) makes
`getAITriage`'s catch branch return level GREEN, and finalizing intake with a
null classifier result stores `some GREEN` — not `none` — in `triageLevel`. -/
theorem getAITriage_failure_counterexample :
    (getAITriageResult none).level = TriageLevel.GREEN
    ∧ (finalizePatient fdBlank none [] [] "MRN-X1" 5).triageLevel = some TriageLevel.GREEN
    ∧ ¬ (finalizePatient fdBlank none [] [] "MRN-X1" 5).triageLevel = none := by
  exact ⟨rfl, rfl, by simp [finalizePatient]⟩

/-- C3 (amended): When the classifier fails (its response cannot be
parsed), `getAITriage` returns the GREEN default with a fixed error
justification instead of surfacing the failure, and finalizing intake with no
classifier result coerces the urgency to `some GREEN` and routes the patient
to the physician queue; the urgency level is never left unset. -/
theorem getAITriage_failure_defaults_green (fd : FormData) (scr ans : List String)
    (freshId : String) (now : Nat) :
    getAITriageResult none =
      { level := TriageLevel.GREEN
        justification := "System error: Using default stable classification." }
    ∧ (finalizePatient fd none scr ans freshId now).triageLevel = some TriageLevel.GREEN
    ∧ (finalizePatient fd none scr ans freshId now).status = PatientStatus.PHYSICIAN_QUEUE :=
  ⟨rfl, rfl, rfl⟩

/-! ## C10: the pregnancy flag is always defined -/

/-- C10: Every patient record the system produces carries a defined
boolean pregnancy flag: registration always creates the record with
`isPregnant = false`; selecting sex MALE during intake forces the form's flag
to `false`; and finalizing intake coerces an undefined flag to `false` — so
no patient placed in a queue carries an undefined flag (which the
physician-queue comparator reads for every GREEN patient). -/
theorem isPregnant_defined_spec :
    (∀ ps sel fd freshId now isToday,
      (handleRegister ps sel fd freshId now isToday).all
        (fun r => !r.1.isPregnant) = true)
    ∧ (∀ fd : FormData, (setSexField fd Sex.MALE).isPregnant = some false)
    ∧ (∀ (fd : FormData) tri scr ans freshId now,
        (finalizePatient { fd with isPregnant := none } tri scr ans freshId now).isPregnant
          = false)
    ∧ (∀ (fd : FormData) tri scr ans freshId now b,
        (finalizePatient { fd with isPregnant := some b } tri scr ans freshId now).isPregnant
          = b) := by
  refine ⟨?_, ?_, ?_, ?_⟩
  · intro ps sel fd freshId now isToday
    unfold handleRegister
    split
    · rfl
    · rfl
  · intro fd
    rfl
  · intro fd tri scr ans freshId now
    rfl
  · intro fd tri scr ans freshId now b
    rfl

/-! ## C9: ticket lookup -/

/-- `List.find?` resolves to the designated element when that element
matches and is the only matching member. -/
theorem find?_eq_of_mem_unique {α : Type} (f : α → Bool) (l : List α) (a : α)
    (ha : a ∈ l) (hfa : f a = true) (huniq : ∀ b ∈ l, f b = true → b = a) :
    l.find? f = some a := by
  cases hf : l.find? f with
  | none => exact absurd hfa (by simpa using List.find?_eq_none.mp hf a ha)
  | some b =>
    exact congrArg some (huniq b (List.mem_of_find?_eq_some hf) (List.find?_some hf))

/-- A normalised query that matches exactly one patient makes
`handleQueueSearch` dispatch on that patient's status. -/
theorem handleQueueSearch_found (ps : List Patient) (p : Patient) (raw : String)
    (hne : jsUpper (jsTrim raw) ≠ "")
    (hmem : p ∈ ps)
    (hmatch : ticketMatches (jsUpper (jsTrim raw)) p = true)
    (huniq : ∀ q ∈ ps, ticketMatches (jsUpper (jsTrim raw)) q = true → q = p) :
    handleQueueSearch ps raw =
      if p.status = PatientStatus.REGISTERED then QueueSearchOutcome.intake p
      else QueueSearchOutcome.alreadyProcessed p.name p.status := by
  unfold handleQueueSearch
  rw [if_neg hne, find?_eq_of_mem_unique _ ps p hmem hmatch huniq]

/-- C9: Ticket lookup normalises its input case-insensitively and
tolerates an optional non-digit prefix: a patient holding ticket "Q-007" (and
being the only patient those queries can match) is found by the inputs
"Q-007", "q-007" and "7"; the lookup (a `List.find?`) returns at most one
match, and when the matched patient's status is not REGISTERED the outcome is
the already-processed report carrying the current status instead of intake or
not-found. -/
theorem handleQueueSearch_ticket_spec (ps : List Patient) (p : Patient)
    (hmem : p ∈ ps) (hq : p.queueNumber = some "Q-007")
    (huniq : ∀ r ∈ ["Q-007", "q-007", "7"], ∀ q ∈ ps,
        ticketMatches (jsUpper (jsTrim r)) q = true → q = p) :
    ∀ r ∈ ["Q-007", "q-007", "7"],
      handleQueueSearch ps r =
        if p.status = PatientStatus.REGISTERED then QueueSearchOutcome.intake p
        else QueueSearchOutcome.alreadyProcessed p.name p.status := by
  intro r hr
  have hmatch : ticketMatches (jsUpper (jsTrim r)) p = true := by
    fin_cases hr <;> simp [ticketMatches, hq] <;> decide
  have hne : jsUpper (jsTrim r) ≠ "" := by
    fin_cases hr <;> decide
  exact handleQueueSearch_found ps p r hne hmem hmatch (huniq r hr)

/-- The registered ticket-holder used by the C9 witness. -/
def patientQ7 : Patient :=
  { basePatient with
    id := "MRN-Q7"
    name := "Holder"
    queueNumber := some "Q-007"
    status := PatientStatus.REGISTERED }

/-- A second patient whose ticket the C9 queries cannot match. -/
def patientQ12 : Patient :=
  { basePatient with
    id := "MRN-Q12"
    name := "Other"
    queueNumber := some "Q-012"
    status := PatientStatus.PHYSICIAN_QUEUE }

/-- Witness for C9 on a two-patient collection. -/
theorem handleQueueSearch_ticket_spec_witness :
    patientQ7 ∈ [patientQ12, patientQ7]
    ∧ patientQ7.queueNumber = some "Q-007"
    ∧ (∀ r ∈ ["Q-007", "q-007", "7"], ∀ q ∈ [patientQ12, patientQ7],
        ticketMatches (jsUpper (jsTrim r)) q = true → q = patientQ7)
    ∧ (∀ r ∈ ["Q-007", "q-007", "7"],
        handleQueueSearch [patientQ12, patientQ7] r =
          if patientQ7.status = PatientStatus.REGISTERED then QueueSearchOutcome.intake patientQ7
          else QueueSearchOutcome.alreadyProcessed patientQ7.name patientQ7.status) :=
  ⟨by decide, by decide, by decide,
    handleQueueSearch_ticket_spec [patientQ12, patientQ7] patientQ7
      (by decide) (by decide) (by decide)⟩

/-! ## C4: one active episode per national identifier -/

theorem length_dropWhile_le (p : α → Bool) (l : List α) :
    (l.dropWhile p).length ≤ l.length := by
  induction l with
  | nil => simp
  | cons x xs ih => by_cases h : p x <;> simp [List.dropWhile, h] <;> omega

/-- Trimming never lengthens a string. -/
theorem jsTrim_length_le (s : String) : (jsTrim s).length ≤ s.length := by
  unfold jsTrim
  have h1 := length_dropWhile_le wsChar s.toList
  have h2 := length_dropWhile_le wsChar (s.toList.dropWhile wsChar).reverse
  show (((s.toList.dropWhile wsChar).reverse.dropWhile wsChar).reverse).length ≤ s.toList.length
  rw [List.length_reverse]
  rw [List.length_reverse] at h2
  omega

/-- An in-collection patient in a non-terminal status with the typed national
identifier forces `activeSession` to report a hit. -/
theorem activeSession_ne_none {ps : List Patient} {nid : String} {p : Patient}
    (hmem : p ∈ ps) (hnid : p.nationalId = nid)
    (hd : p.status ≠ PatientStatus.DISCHARGED) (hs : p.status ≠ PatientStatus.STABILIZED_HOME)
    (hlen : 14 ≤ nid.length) :
    activeSession ps nid ≠ none := by
  unfold activeSession
  rw [if_neg]
  · intro hfind
    have := List.find?_eq_none.mp hfind p hmem
    simp [hnid, hd, hs] at this
  · rintro (h | h)
    · rw [h] at hlen; simp at hlen
    · omega

/-- C4: At most one record per national identifier is in a non-terminal
status: while a patient with the typed national identifier is still in
PHYSICIAN_QUEUE, registration is rejected and the collection is unchanged (no
record is created); once every record of that identity is DISCHARGED (or
STABILIZED_HOME) a registration through the returning-patient path succeeds,
creating a REGISTERED entry that reuses the selected record's MRN. -/
theorem one_active_episode_spec (ps : List Patient) (fd : RegFormData)
    (sel : Option Patient) (freshId : String) (now : Nat) (isToday : Nat → Bool)
    (p0 : Patient) (hmem : p0 ∈ ps) (hnid : p0.nationalId = fd.nationalId) :
    (p0.status = PatientStatus.PHYSICIAN_QUEUE →
      handleRegister ps sel fd freshId now isToday = none
      ∧ registerAndAdd ps sel fd freshId now isToday = ps)
    ∧ (sel = some p0 → p0.id ≠ "" →
        (∀ q ∈ ps, q.nationalId = fd.nationalId →
          q.status = PatientStatus.DISCHARGED ∨ q.status = PatientStatus.STABILIZED_HOME) →
        (jsTrim fd.name).length > 0 → (jsTrim fd.nationalId).length = 14 →
        (jsTrim fd.phone).length > 7 → fd.age ≠ "" →
        ∃ entry qn, handleRegister ps sel fd freshId now isToday = some (entry, qn)
          ∧ entry.id = p0.id ∧ entry.status = PatientStatus.REGISTERED
          ∧ entry.nationalId = fd.nationalId) := by
  constructor
  · intro hstat
    have hinval : ¬ isRegFormValid ps fd = true := by
      simp only [isRegFormValid, decide_eq_true_eq]
      rintro ⟨-, h2, -, -, h5⟩
      have hlen : 14 ≤ fd.nationalId.length :=
        le_trans (le_of_eq h2.symm) (jsTrim_length_le fd.nationalId)
      exact activeSession_ne_none hmem hnid (by rw [hstat]; intro hc; cases hc)
        (by rw [hstat]; intro hc; cases hc) hlen h5
    have hnone : handleRegister ps sel fd freshId now isToday = none := by
      unfold handleRegister
      rw [if_pos hinval]
    refine ⟨hnone, ?_⟩
    unfold registerAndAdd
    rw [hnone]
  · intro hsel hid hterm h1 h2 h3 h4
    have hval : isRegFormValid ps fd = true := by
      simp only [isRegFormValid, decide_eq_true_eq]
      refine ⟨h1, h2, h3, h4, ?_⟩
      unfold activeSession
      split
      · rfl
      · apply List.find?_eq_none.mpr
        intro q hq
        simp only [decide_eq_true_eq, not_and]
        intro hqn hqd
        rcases hterm q hq hqn with h | h
        · exact absurd h hqd
        · simp [h]
    unfold handleRegister
    rw [if_neg (by simp [hval]), hsel]
    exact ⟨_, _, rfl, by simp [jsOrStr, hid], rfl, rfl⟩

/-- The national identifier shared by the C4/C7 examples. -/
def natEx : String := "12345678901234"

/-- The registration form the C4/C7 witnesses submit. -/
def regFd : RegFormData :=
  { name := "Jane Doe"
    nationalId := natEx
    phone := "0100000000"
    email := ""
    address := ""
    age := "40"
    sex := Sex.FEMALE
    specialty := Specialty.INTERNAL_MEDICINE }

/-- A patient of that identity still waiting for the physician. -/
def activeEx : Patient :=
  { basePatient with
    id := "MRN-R1"
    name := "Jane Doe"
    nationalId := natEx
    status := PatientStatus.PHYSICIAN_QUEUE
    triageLevel := some TriageLevel.GREEN
    timestamp := 40 }

/-- The same identity after discharge, with a three-step episode trail. -/
def dischargedEx : Patient :=
  { basePatient with
    id := "MRN-R1"
    name := "Jane Doe"
    nationalId := natEx
    status := PatientStatus.DISCHARGED
    triageLevel := some TriageLevel.GREEN
    timestamp := 90
    pathway :=
      [{ status := PatientStatus.REGISTERED, description := "registered", timestamp := 10,
         actor := "Registration Clerk" },
       { status := PatientStatus.PHYSICIAN_QUEUE, description := "triaged", timestamp := 40,
         actor := "Triage Nurse" },
       { status := PatientStatus.DISCHARGED, description := "discharged", timestamp := 90,
         actor := "Attending Physician" }] }

/-- Witness for C4: the duplicate registration is rejected while the episode
is active, and succeeds with the same MRN once it is discharged. -/
theorem one_active_episode_spec_witness :
    (activeEx ∈ [activeEx] ∧ activeEx.nationalId = regFd.nationalId
      ∧ (handleRegister [activeEx] none regFd "MRN-NEW" 200 (fun _ => false) = none
          ∧ registerAndAdd [activeEx] none regFd "MRN-NEW" 200 (fun _ => false) = [activeEx]))
    ∧ (dischargedEx ∈ [dischargedEx] ∧ dischargedEx.nationalId = regFd.nationalId
      ∧ ∃ entry qn,
          handleRegister [dischargedEx] (some dischargedEx) regFd "MRN-NEW" 200 (fun _ => false)
            = some (entry, qn)
          ∧ entry.id = dischargedEx.id ∧ entry.status = PatientStatus.REGISTERED
          ∧ entry.nationalId = regFd.nationalId) :=
  ⟨⟨by decide, by decide,
    (one_active_episode_spec [activeEx] regFd none "MRN-NEW" 200 (fun _ => false) activeEx
      (by decide) (by decide)).1 (by decide)⟩,
   ⟨by decide, by decide,
    (one_active_episode_spec [dischargedEx] regFd (some dischargedEx) "MRN-NEW" 200
      (fun _ => false) dischargedEx (by decide) (by decide)).2 rfl (by decide) (by decide)
      (by decide) (by decide) (by decide) (by decide)⟩⟩

/-! ## C7: pathway append-only (corrected: per episode, not per record) -/

/-- Appending one step stamped `now` past every existing stamp keeps the
pathway's timestamps non-decreasing. -/
theorem chain_append_step {l : List PathwayStep} {s : PathwayStep} {now : Nat}
    (hb : ∀ t ∈ l, t.timestamp ≤ now) (hs : s.timestamp = now)
    (hc : l.Chain' (fun a b => a.timestamp ≤ b.timestamp)) :
    (l ++ [s]).Chain' (fun a b => a.timestamp ≤ b.timestamp) := by
  rw [List.chain'_append]
  refine ⟨hc, List.chain'_singleton _, ?_⟩
  intro x hx y hy
  simp only [List.head?_cons, Option.mem_def, Option.some.injEq] at hy
  subst hy
  rw [hs]
  exact hb x (List.mem_of_mem_getLast? hx)

/-- C7 counterexample: The claim says pathway length never decreases
over the record's lifetime and entries are never removed or replaced.  But
re-registering a returning patient (same MRN) hands `addPatient` a brand-new
entry whose `pathway` field is the single registration step, and the spread
merge overwrites the old trail: the record `MRN-R1` goes from a three-step
pathway to a one-step pathway. -/
theorem pathway_length_decreases_counterexample :
    dischargedEx.pathway.length = 3
    ∧ (registerAndAdd [dischargedEx] (some dischargedEx) regFd "MRN-NEW" 200
        (fun _ => false)).map (fun p => (p.id, p.pathway.length)) = [("MRN-R1", 1)] := by
  decide

/-- C7 (amended): Within one episode the pathway is append-only: each
transition operation (triage finalisation, escalation, admission, physician
discharge, every ER disposition) extends the pathway by exactly one step at
the end — existing entries untouched, length up by one — and that step is
stamped with the operation's clock, so timestamps stay non-decreasing as long
as each operation runs no earlier than every recorded step.  Registration
starts an episode with exactly the single registration step; for a returning
patient this fresh single-step pathway *replaces* the record's previous
episode's trail (which is what the counterexample exhibits). -/
theorem pathway_append_step_spec :
    (∀ ps sel fd freshId now isToday entry qn,
      handleRegister ps sel fd freshId now isToday = some (entry, qn) →
      ∃ s, entry.pathway = [s] ∧ s.timestamp = now ∧ s.status = PatientStatus.REGISTERED)
    ∧ (∀ fd tri scr ans freshId now,
        ∃ s, (finalizePatient fd tri scr ans freshId now).pathway = fd.pathway ++ [s]
          ∧ s.timestamp = now)
    ∧ (∀ p notes now p', handleTransferToER p notes now = some p' →
        ∃ s, p'.pathway = p.pathway ++ [s] ∧ s.timestamp = now)
    ∧ (∀ p notes now,
        ∃ s, (handleAdmit p notes now).pathway = p.pathway ++ [s] ∧ s.timestamp = now)
    ∧ (∀ p notes b days now,
        ∃ s, (finalizeDischarge p notes b days now).pathway = p.pathway ++ [s]
          ∧ s.timestamp = now)
    ∧ (∀ p st notes now p', handleDisposition p st notes now = some p' →
        ∃ s, p'.pathway = p.pathway ++ [s] ∧ s.timestamp = now)
    ∧ (∀ (p p' : Patient) (now : Nat),
        (∃ s, p'.pathway = p.pathway ++ [s] ∧ s.timestamp = now) →
        (∀ t ∈ p.pathway, t.timestamp ≤ now) →
        p.pathway.Chain' (fun a b => a.timestamp ≤ b.timestamp) →
        p'.pathway.Chain' (fun a b => a.timestamp ≤ b.timestamp)) := by
  refine ⟨?_, ?_, ?_, ?_, ?_, ?_, ?_⟩
  · intro ps sel fd freshId now isToday entry qn h
    unfold handleRegister at h
    split at h
    · cases h
    · cases h
      exact ⟨_, rfl, rfl, rfl⟩
  · intro fd tri scr ans freshId now
    exact ⟨_, rfl, rfl⟩
  · intro p notes now p' h
    unfold handleTransferToER at h
    split at h
    · cases h
    · cases h
      exact ⟨_, rfl, rfl⟩
  · intro p notes now
    exact ⟨_, rfl, rfl⟩
  · intro p notes b days now
    exact ⟨_, rfl, rfl⟩
  · intro p st notes now p' h
    unfold handleDisposition at h
    split at h
    · cases h
    · cases h
      split
      · exact ⟨_, rfl, rfl⟩
      · exact ⟨_, rfl, rfl⟩
  · rintro p p' now ⟨s, hp, hs⟩ hb hc
    rw [hp]
    exact chain_append_step hb hs hc

/-- Witness for C7 on the concrete escalation of patient A at clock 7. -/
theorem pathway_append_step_spec_witness :
    handleTransferToER patientA "BP crashing" 7
        = some (runTransferToER patientA "BP crashing" 7)
    ∧ (∃ s, (runTransferToER patientA "BP crashing" 7).pathway = patientA.pathway ++ [s]
        ∧ s.timestamp = 7)
    ∧ (∀ t ∈ patientA.pathway, t.timestamp ≤ 7)
    ∧ patientA.pathway.Chain' (fun a b => a.timestamp ≤ b.timestamp)
    ∧ (runTransferToER patientA "BP crashing" 7).pathway.Chain'
        (fun a b => a.timestamp ≤ b.timestamp) := by
  have happ := pathway_append_step_spec.2.2.1 patientA "BP crashing" 7
    (runTransferToER patientA "BP crashing" 7) (by decide)
  exact ⟨by decide, happ,
    by decide, by decide,
    pathway_append_step_spec.2.2.2.2.2.2 patientA (runTransferToER patientA "BP crashing" 7) 7
      happ (by decide) (by decide)⟩

end Vitalli
